import Mathlib

/-!
# WebGPU samples: `inter-stage-variables` and `storage-buffer-as-a-vertex-buffer`

A shallow embedding of the two `main.js` scripts.  Each script is a straight
line of calls into the browser's WebGPU API.  A call is embedded as an `Op`
value holding the arguments the script passes, and `main` is embedded as a
program in `ExceptT Failure (StateM (List Op))`: it logs one `Op` per API call,
in the evaluation order of the JavaScript source, `throw`s where the script
throws, and fails with the reason of a rejected promise where the script awaits
it.  The host (`navigator`) is a parameter: its two asynchronous requests may
resolve to an object, resolve to nothing, or reject.

The WGSL text handed to `createShaderModule` is embedded by its declarations
(structures, resource variables, entry points) and the two vertex entry points
are also embedded as Lean functions.
-/

namespace WebGPU

/-! ## Host data, buffers and vertex layouts -/

/-- Numeric literals of the scripts (`0`, `1`, `0.3`, `1.0`) are kept exact. -/
abbrev Num := ℚ

/-- `Float32Array.BYTES_PER_ELEMENT`. -/
def BYTES_PER_ELEMENT : Nat := 4

/-- `byteLength` of a `Float32Array` holding the given elements. -/
def byteLength (xs : List Num) : Nat := BYTES_PER_ELEMENT * xs.length

/-- The `GPUBufferUsage` flag constants of the WebGPU API. -/
structure GPUBufferUsageFlags where
  MAP_READ : Nat
  MAP_WRITE : Nat
  COPY_SRC : Nat
  COPY_DST : Nat
  INDEX : Nat
  VERTEX : Nat
  UNIFORM : Nat
  STORAGE : Nat
  INDIRECT : Nat
  QUERY_RESOLVE : Nat

/-- The values the WebGPU API gives to `GPUBufferUsage`. -/
def GPUBufferUsage : GPUBufferUsageFlags where
  MAP_READ := 0x0001
  MAP_WRITE := 0x0002
  COPY_SRC := 0x0004
  COPY_DST := 0x0008
  INDEX := 0x0010
  VERTEX := 0x0020
  UNIFORM := 0x0040
  STORAGE := 0x0080
  INDIRECT := 0x0100
  QUERY_RESOLVE := 0x0200

/-- The descriptor passed to `device.createBuffer`. -/
structure BufferDescriptor where
  label : Option String
  size : Nat
  usage : Nat
  deriving DecidableEq, Repr

/-- The vertex formats (`GPUVertexFormat`) relevant to 32-bit float data. -/
inductive VertexFormat where
  | float32
  | float32x2
  | float32x3
  | float32x4
  deriving DecidableEq, Repr

/-- Number of 32-bit floats an attribute of the given format stores. -/
def VertexFormat.components : VertexFormat → Nat
  | .float32 => 1
  | .float32x2 => 2
  | .float32x3 => 3
  | .float32x4 => 4

/-- Size in bytes of an attribute of the given format. -/
def VertexFormat.byteSize (f : VertexFormat) : Nat := 4 * f.components

/-- One entry of `attributes` in a vertex buffer layout. -/
structure VertexAttribute where
  format : VertexFormat
  offset : Nat
  shaderLocation : Nat
  deriving DecidableEq, Repr

/-- A `GPUVertexBufferLayout` literal. -/
structure VertexBufferLayout where
  arrayStride : Nat
  attributes : List VertexAttribute
  deriving DecidableEq, Repr

/-! ## WGSL declarations -/

/-- The scalar and vector types that occur in the two shaders. -/
inductive WgslType where
  | f32
  | u32
  | vec2f
  | vec3f
  | vec4f
  deriving DecidableEq, Repr

/-- WGSL `AlignOf` for the scalar and vector types. -/
def WgslType.alignOf : WgslType → Nat
  | .f32 => 4
  | .u32 => 4
  | .vec2f => 8
  | .vec3f => 16
  | .vec4f => 16

/-- WGSL `SizeOf` for the scalar and vector types. -/
def WgslType.sizeOf : WgslType → Nat
  | .f32 => 4
  | .u32 => 4
  | .vec2f => 8
  | .vec3f => 12
  | .vec4f => 16

/-- Number of `f32` components of a type. -/
def WgslType.components : WgslType → Nat
  | .f32 => 1
  | .u32 => 1
  | .vec2f => 2
  | .vec3f => 3
  | .vec4f => 4

/-- A WGSL `struct` declaration: its name and its members in order. -/
structure StructDecl where
  name : String
  members : List (String × WgslType)
  deriving DecidableEq, Repr

/-- WGSL `roundUp(k, n)`: the least multiple of `k` that is at least `n`. -/
def roundUp (k n : Nat) : Nat := (n + k - 1) / k * k

/-- Byte offsets of the members of a structure, given the first free byte. -/
def memberOffsets : Nat → List (String × WgslType) → List Nat
  | _, [] => []
  | free, (_, t) :: rest =>
    let off := roundUp t.alignOf free
    off :: memberOffsets (off + t.sizeOf) rest

/-- First byte after the last member, given the first free byte. -/
def membersEnd : Nat → List (String × WgslType) → Nat
  | free, [] => free
  | free, (_, t) :: rest => membersEnd (roundUp t.alignOf free + t.sizeOf) rest

/-- WGSL `AlignOf` of a structure: the largest member alignment. -/
def StructDecl.alignOf (s : StructDecl) : Nat :=
  (s.members.map fun m => m.2.alignOf).foldl max 1

/-- WGSL `SizeOf` of a structure. -/
def StructDecl.sizeOf (s : StructDecl) : Nat :=
  roundUp s.alignOf (membersEnd 0 s.members)

/-- WGSL element stride of `array<S>` for a structure `S`. -/
def StructDecl.arrayStride (s : StructDecl) : Nat :=
  roundUp s.alignOf s.sizeOf

/-- Address space and access mode of a resource variable. -/
inductive ResourceKind where
  | uniform
  | storageRead
  | storageReadWrite
  deriving DecidableEq, Repr

/-- A module-scope resource variable `@group(g) @binding(b) var<...> name : array<S>`. -/
structure BindingDecl where
  group : Nat
  binding : Nat
  kind : ResourceKind
  name : String
  element : StructDecl
  deriving DecidableEq, Repr

/-- The attribute on an entry point parameter. -/
inductive ParamAttr where
  | builtin (name : String)
  | location (index : Nat)
  deriving DecidableEq, Repr

/-- A formal parameter of an entry point. -/
structure Param where
  attr : ParamAttr
  name : String
  type : WgslType
  deriving DecidableEq, Repr

/-- The pipeline stage of an entry point. -/
inductive Stage where
  | vertex
  | fragment
  deriving DecidableEq, Repr

/-- An entry point: stage, name, parameters and the resource variables its body names. -/
structure EntryPoint where
  stage : Stage
  name : String
  params : List Param
  uses : List String
  deriving DecidableEq, Repr

/-- The declarations of a WGSL module. -/
structure ShaderModule where
  label : String
  structs : List StructDecl
  bindings : List BindingDecl
  entryPoints : List EntryPoint
  deriving DecidableEq, Repr

/-! ## Descriptors and API calls -/

/-- The `vertex` member of a render pipeline descriptor. -/
structure VertexState where
  module : String
  entryPoint : String
  buffers : Option (List VertexBufferLayout)
  deriving DecidableEq, Repr

/-- The `fragment` member of a render pipeline descriptor. -/
structure FragmentState where
  module : String
  entryPoint : String
  targets : List String
  deriving DecidableEq, Repr

/-- The descriptor passed to `device.createRenderPipeline`. -/
structure RenderPipelineDescriptor where
  label : String
  layout : String
  vertex : VertexState
  fragment : FragmentState
  primitive : Option String
  deriving DecidableEq, Repr

/-- One entry of a bind group: `{ binding, resource: { buffer } }`. -/
structure BindGroupEntry where
  binding : Nat
  buffer : String
  deriving DecidableEq, Repr

/-- Where the `layout` of a bind group comes from. -/
inductive BindGroupLayoutRef where
  | ofPipeline (pipeline : String) (index : Nat)
  deriving DecidableEq, Repr

/-- The descriptor passed to `device.createBindGroup`. -/
structure BindGroupDescriptor where
  label : String
  layout : BindGroupLayoutRef
  entries : List BindGroupEntry
  deriving DecidableEq, Repr

/-- A colour `(r, g, b, a)`. -/
structure Color where
  r : Num
  g : Num
  b : Num
  a : Num
  deriving DecidableEq, Repr

/-- One colour attachment of a render pass descriptor. -/
structure ColorAttachment where
  clearValue : Color
  loadOp : String
  storeOp : String
  deriving DecidableEq, Repr

/-- The descriptor passed to `encoder.beginRenderPass`. -/
structure RenderPassDescriptor where
  label : Option String
  colorAttachments : List ColorAttachment
  deriving DecidableEq, Repr

/-- The API calls the two scripts make, with the arguments they pass.  Objects are
named by the `const` the script binds them to. -/
inductive Op where
  | log (message : String)
  | requestAdapter (powerPreference : String)
  | requestDevice
  | getElementById (id : String)
  | getContext (contextId : String)
  | getPreferredCanvasFormat
  | configure (format : String)
  | createShaderModule (var : String) (module : ShaderModule)
  | createBuffer (var : String) (descriptor : BufferDescriptor)
  | writeBuffer (buffer : String) (bufferOffset : Nat) (data : List Num)
  | createRenderPipeline (var : String) (descriptor : RenderPipelineDescriptor)
  | getBindGroupLayout (pipeline : String) (index : Nat)
  | createBindGroup (var : String) (descriptor : BindGroupDescriptor)
  | getCurrentTextureView
  | createCommandEncoder
  | beginRenderPass (descriptor : RenderPassDescriptor)
  | setPipeline (pipeline : String)
  | setVertexBuffer (slot : Nat) (buffer : String)
  | setIndexBuffer (buffer : String)
  | setBindGroup (index : Nat) (bindGroup : String)
  | draw (vertexCount : Nat) (instanceCount : Option Nat)
  | drawIndexed (indexCount : Nat) (instanceCount : Option Nat)
  | endPass
  | finish
  | submit (commandBuffers : List String)
  deriving DecidableEq, Repr

/-! ## The host -/

/-- A logical device handle. -/
structure GPUDevice where
  label : String
  deriving DecidableEq, Repr

/-- How the promise returned by an asynchronous request settles: it resolves to an
object or to `null`, or it rejects with a reason. -/
inductive Settled (α : Type) where
  | resolved (value : Option α)
  | rejected (reason : String)

/-- An adapter: `requestDevice()` returns a promise of a device. -/
structure GPUAdapter where
  requestDevice : Settled GPUDevice

/-- The object `navigator.gpu`: `requestAdapter(options)` returns a promise of an
adapter. -/
structure GPU where
  requestAdapter : String → Settled GPUAdapter
  getPreferredCanvasFormat : String

/-- The global `navigator`; `gpu` is absent on a browser without WebGPU. -/
structure Navigator where
  gpu : Option GPU

/-- What `main` fails with: an `Error` the script throws itself, or the reason of
a rejected promise that an `await` rethrows. -/
inductive Failure where
  | error (message : String)
  | rejection (reason : String)
  deriving DecidableEq, Repr

/-- Programs: a log of the calls made so far, latest first, and an exception
channel. -/
abbrev Script := ExceptT Failure (StateM (List Op))

/-- Record one API call. -/
def call (op : Op) : Script Unit :=
  modify fun log => op :: log

/-- The expression `await promise`: the value the promise resolves to, or the
rejection reason thrown. -/
def await {α : Type} : Settled α → Script (Option α)
  | .resolved value => pure value
  | .rejected reason => throw (.rejection reason)

/-- What running a script leaves behind: the calls made and how it ended. -/
structure Outcome where
  trace : List Op
  result : Except Failure Unit

/-- Run a script from an empty log; the trace lists the calls in the order made. -/
def run (s : Script Unit) : Outcome :=
  let r := (ExceptT.run s).run []
  { trace := r.2.reverse, result := r.1 }

/-! ## Device memory and vertex input -/

/-- A buffer's contents as 32-bit words; word `k` sits at byte offset `4 * k`. -/
abbrev Contents := List Num

/-- Replace the words of `contents` from word `index` on by `data`. -/
def overwrite (contents : Contents) (index : Nat) (data : List Num) : Contents :=
  contents.take index ++ data ++ contents.drop (index + data.length)

/-- The condition under which a buffer write is out of bounds. -/
def outOfBounds (sizeBytes offset dataBytes : Nat) : Bool :=
  decide (offset + dataBytes > sizeBytes)

/-- The effect of one call on the contents of the buffer bound to `var`: creation
zero-fills it, an in-bounds word-aligned write replaces the words it covers. -/
def Op.updateBuffer (var : String) (contents : Option Contents) : Op → Option Contents
  | .createBuffer v descriptor =>
    if v = var then some (List.replicate (descriptor.size / BYTES_PER_ELEMENT) 0)
    else contents
  | .writeBuffer v bufferOffset data =>
    if v = var then
      contents.map fun c =>
        if bufferOffset % BYTES_PER_ELEMENT = 0 ∧
            ¬ outOfBounds (byteLength c) bufferOffset (byteLength data) then
          overwrite c (bufferOffset / BYTES_PER_ELEMENT) data
        else c
    else contents
  | _ => contents

/-- The contents of the buffer bound to `var` after a trace. -/
def bufferContents (trace : List Op) (var : String) : Option Contents :=
  trace.foldl (fun contents op => op.updateBuffer var contents) none

/-- The descriptor the buffer bound to `var` was created with. -/
def createdBuffer (trace : List Op) (var : String) : Option BufferDescriptor :=
  trace.findSome? fun
    | .createBuffer v descriptor => if v = var then some descriptor else none
    | _ => none

/-- The module bound to `var`. -/
def createdShaderModule (trace : List Op) (var : String) : Option ShaderModule :=
  trace.findSome? fun
    | .createShaderModule v module => if v = var then some module else none
    | _ => none

/-- The descriptor the pipeline bound to `var` was created with. -/
def createdRenderPipeline (trace : List Op) (var : String) :
    Option RenderPipelineDescriptor :=
  trace.findSome? fun
    | .createRenderPipeline v descriptor => if v = var then some descriptor else none
    | _ => none

/-- The descriptor the bind group bound to `var` was created with. -/
def createdBindGroup (trace : List Op) (var : String) : Option BindGroupDescriptor :=
  trace.findSome? fun
    | .createBindGroup v descriptor => if v = var then some descriptor else none
    | _ => none

/-- The writes made to the buffer bound to `var`: offset and data, in order. -/
def bufferWrites (trace : List Op) (var : String) : List (Nat × List Num) :=
  trace.filterMap fun
    | .writeBuffer v bufferOffset data => if v = var then some (bufferOffset, data) else none
    | _ => none

/-- The 32-bit float at a byte offset. -/
def loadF32 (contents : Contents) (byteOffset : Nat) : Option Num :=
  if byteOffset % BYTES_PER_ELEMENT = 0 then contents[byteOffset / BYTES_PER_ELEMENT]?
  else none

/-- The `count` consecutive 32-bit floats starting at a byte offset. -/
def loadFloats (contents : Contents) (byteOffset : Nat) : Nat → Option (List Num)
  | 0 => some []
  | count + 1 => do
    let x ← loadF32 contents byteOffset
    let xs ← loadFloats contents (byteOffset + BYTES_PER_ELEMENT) count
    pure (x :: xs)

/-- Vertex fetch: the floats of one attribute for the vertex of the given index. -/
def fetchAttribute (contents : Contents) (layout : VertexBufferLayout)
    (attr : VertexAttribute) (vertexIndex : Nat) : Option (List Num) :=
  loadFloats contents (layout.arrayStride * vertexIndex + attr.offset)
    attr.format.components

/-- A three-component vector. -/
structure Vec3 where
  x : Num
  y : Num
  z : Num
  deriving DecidableEq, Repr

/-- A four-component vector. -/
structure Vec4 where
  x : Num
  y : Num
  z : Num
  w : Num
  deriving DecidableEq, Repr

/-- The WGSL constructor `vec4f(v, w)` for a `vec3f` `v`. -/
def vec4f (v : Vec3) (w : Num) : Vec4 := { x := v.x, y := v.y, z := v.z, w := w }

/-- A `vec3f` shader input from the floats of a three-component attribute. -/
def Vec3.ofFloats : List Num → Option Vec3
  | [x, y, z] => some { x := x, y := y, z := z }
  | _ => none

/-- A `vec4f` from four floats in memory. -/
def Vec4.ofFloats : List Num → Option Vec4
  | [x, y, z, w] => some { x := x, y := y, z := z, w := w }
  | _ => none

/-! ## Triangles -/

/-- A triangle of the primitive assembly. -/
structure Triangle where
  a : Vec3
  b : Vec3
  c : Vec3
  deriving DecidableEq, Repr

/-- Primitive assembly for the `triangle-list` topology, the default when the
pipeline descriptor has no `primitive` member: vertices 0-2, 3-5, ... -/
def triangleList : List Vec3 → List Triangle
  | a :: b :: c :: rest => { a := a, b := b, c := c } :: triangleList rest
  | _ => []

/-- The edge function of the directed edge `a -> b` at the point `(x, y)`. -/
def edgeFunction (a b : Vec3) (x y : Num) : Num :=
  (b.x - a.x) * (y - a.y) - (b.y - a.y) * (x - a.x)

/-- Twice the signed area of the triangle in the `xy` plane; positive when the
vertices run counter-clockwise. -/
def Triangle.doubleArea (t : Triangle) : Num := edgeFunction t.a t.b t.c.x t.c.y

/-- The point `(x, y)` lies in the closed triangle (its `xy` projection). -/
def Triangle.contains (t : Triangle) (x y : Num) : Prop :=
  (0 ≤ edgeFunction t.a t.b x y ∧ 0 ≤ edgeFunction t.b t.c x y ∧
    0 ≤ edgeFunction t.c t.a x y) ∨
  (edgeFunction t.a t.b x y ≤ 0 ∧ edgeFunction t.b t.c x y ≤ 0 ∧
    edgeFunction t.c t.a x y ≤ 0)

instance (t : Triangle) (x y : Num) : Decidable (t.contains x y) := by
  unfold Triangle.contains
  infer_instance

/-! ## `src/inter-stage-variables/main.js` -/

namespace InterStageVariables

/-- The packed `Float32Array` of positions. -/
def vertices : List Num :=
  [0, 0, 0,
   1, 0, 0,
   1, 1, 0,

   0, 0, 0,
   1, 1, 0,
   0, 1, 0]

/-- The descriptor of `vertexBuffer`. -/
def vertexBufferDescriptor : BufferDescriptor where
  label := some "Cell vertices"
  size := byteLength vertices
  usage := GPUBufferUsage.VERTEX ||| GPUBufferUsage.COPY_DST

/-- The layout the pipeline is given for vertex buffer slot 0. -/
def vertexBufferLayout : VertexBufferLayout where
  arrayStride := 12
  attributes := [{ format := .float32x3, offset := 0, shaderLocation := 0 }]

/-- The declarations of the WGSL module "Cell shader". -/
def cellShaderModule : ShaderModule where
  label := "Cell shader"
  structs :=
    [{ name := "OurVertexShaderOutput",
       members := [("position", .vec4f), ("fragColor", .vec4f)] }]
  bindings := []
  entryPoints :=
    [{ stage := .vertex, name := "vertexMain",
       params := [{ attr := .location 0, name := "pos", type := .vec3f },
                  { attr := .builtin "vertex_index", name := "vertexIndex", type := .u32 }],
       uses := [] },
     { stage := .fragment, name := "fragmentMain",
       params := [{ attr := .location 0, name := "color", type := .vec4f }],
       uses := [] }]

/-- The descriptor of `cellPipeline`. -/
def cellPipelineDescriptor (canvasFormat : String) : RenderPipelineDescriptor where
  label := "Cell pipeline"
  layout := "auto"
  vertex :=
    { module := "cellShaderModule", entryPoint := "vertexMain",
      buffers := some [vertexBufferLayout] }
  fragment :=
    { module := "cellShaderModule", entryPoint := "fragmentMain",
      targets := [canvasFormat] }
  primitive := none

/-- The descriptor literal passed to `beginRenderPass`. -/
def renderPassDescriptor : RenderPassDescriptor where
  label := none
  colorAttachments :=
    [{ clearValue := { r := 0, g := 0, b := 3 / 10, a := 1 },
       loadOp := "clear", storeOp := "store" }]

/-- The value of `OurVertexShaderOutput`. -/
structure OurVertexShaderOutput where
  position : Vec4
  fragColor : Vec4
  deriving DecidableEq, Repr

/-- The array `colors` of `vertexMain`. -/
def colors : List Vec4 :=
  [{ x := 1, y := 0, z := 0, w := 1 },
   { x := 0, y := 1, z := 0, w := 1 },
   { x := 0, y := 0, z := 1, w := 1 },
   { x := 1, y := 1, z := 0, w := 1 },
   { x := 0, y := 1, z := 1, w := 1 },
   { x := 1, y := 0, z := 1, w := 1 }]

/-- The vertex entry point `vertexMain`; an index outside `colors` gives no value. -/
def vertexMain (pos : Vec3) (vertexIndex : Nat) : Option OurVertexShaderOutput := do
  let color ← colors[vertexIndex]?
  pure { position := vec4f pos 1, fragColor := color }

/-- The script `main`, call by call. -/
def main (navigator : Navigator) : Script Unit := do
  call (.log "Javascript is running...")
  let some gpu := navigator.gpu
    | throw (.error "WebGPU is not supported by your browser")
  call (.requestAdapter "low-power")
  let adapter ← await (gpu.requestAdapter "low-power")
  let some adapter := adapter
    | throw (.error "Couldn't find a suitable adapter for WebGPU")
  call .requestDevice
  let device ← await adapter.requestDevice
  let some _device := device
    | throw (.error "Failed to request device from GPUAdapter")
  call (.getElementById "canvas-main")
  call (.getContext "webgpu")
  call .getPreferredCanvasFormat
  let canvasFormat := gpu.getPreferredCanvasFormat
  call (.configure canvasFormat)
  call (.createBuffer "vertexBuffer" vertexBufferDescriptor)
  call (.writeBuffer "vertexBuffer" 0 vertices)
  call (.createShaderModule "cellShaderModule" cellShaderModule)
  call (.createRenderPipeline "cellPipeline" (cellPipelineDescriptor canvasFormat))
  call .createCommandEncoder
  call .getCurrentTextureView
  call (.beginRenderPass renderPassDescriptor)
  call (.setPipeline "cellPipeline")
  call (.setVertexBuffer 0 "vertexBuffer")
  call (.draw 6 none)
  call .endPass
  call .finish
  call (.submit ["commandBuffer"])

end InterStageVariables

/-! ## `src/storage-buffer-as-a-vertex-buffer/main.js` -/

namespace StorageBufferAsAVertexBuffer

/-- The WGSL structure `Vertex`. -/
def Vertex : StructDecl where
  name := "Vertex"
  members := [("pos", .vec4f)]

/-- The declarations of the WGSL module "main". -/
def shaderModule : ShaderModule where
  label := "main"
  structs := [Vertex]
  bindings :=
    [{ group := 0, binding := 0, kind := .storageRead, name := "vertices",
       element := Vertex }]
  entryPoints :=
    [{ stage := .vertex, name := "vs_main",
       params := [{ attr := .builtin "vertex_index", name := "vertexIndex", type := .u32 }],
       uses := ["vertices"] },
     { stage := .fragment, name := "fs_main", params := [], uses := [] }]

/-- The run-time value of a `Vertex`. -/
structure VertexValue where
  pos : Vec4
  deriving DecidableEq, Repr

/-- Byte offset of the member `pos` inside a `Vertex`. -/
def posOffset : Nat := (memberOffsets 0 Vertex.members).headD 0

/-- The view `vertices : array<Vertex>` the shader has of a buffer: as many elements
as whole strides fit, element `i` read at byte offset `stride * i`. -/
def verticesView (contents : Contents) : Option (List VertexValue) :=
  (List.range (byteLength contents / Vertex.arrayStride)).mapM fun i => do
    let floats ← loadFloats contents (Vertex.arrayStride * i + posOffset)
      WgslType.vec4f.components
    let pos ← Vec4.ofFloats floats
    pure { pos := pos }

/-- The vertex entry point `vs_main`; an index outside the array gives no value. -/
def vs_main (vertices : List VertexValue) (vertexIndex : Nat) : Option Vec4 :=
  (vertices[vertexIndex]?).map fun v => v.pos

/-- Floats per vertex in `vertexData`: x, y, z, w. -/
def floatsPerVertex : Nat := 4

/-- The `Float32Array` with four floats per vertex. -/
def vertexData : List Num :=
  [0, 0, 0, 1,
   1, 0, 0, 1,
   1, 1, 0, 1,

   0, 0, 0, 1,
   1, 1, 0, 1,
   0, 1, 0, 1]

/-- Byte offset of record `i` in `vertexData`. -/
def hostRecordOffset (i : Nat) : Nat := BYTES_PER_ELEMENT * (floatsPerVertex * i)

/-- Record `i` of `vertexData`. -/
def hostRecord (i : Nat) : List Num :=
  (vertexData.drop (floatsPerVertex * i)).take floatsPerVertex

/-- The descriptor of `storageVertexBuffer`. -/
def storageVertexBufferDescriptor : BufferDescriptor where
  label := none
  size := byteLength vertexData
  usage := GPUBufferUsage.STORAGE ||| GPUBufferUsage.COPY_DST

/-- The descriptor of `rendererPipeline`. -/
def rendererPipelineDescriptor (canvasFormat : String) : RenderPipelineDescriptor where
  label := "main"
  layout := "auto"
  vertex := { module := "shaderModule", entryPoint := "vs_main", buffers := none }
  fragment := { module := "shaderModule", entryPoint := "fs_main", targets := [canvasFormat] }
  primitive := none

/-- The descriptor of `bindGroup`. -/
def bindGroupDescriptor : BindGroupDescriptor where
  label := "main-bindgroup"
  layout := .ofPipeline "rendererPipeline" 0
  entries := [{ binding := 0, buffer := "storageVertexBuffer" }]

/-- The object `renderPassDescriptor`. -/
def renderPassDescriptor : RenderPassDescriptor where
  label := some "main"
  colorAttachments :=
    [{ clearValue := { r := 3 / 10, g := 3 / 10, b := 3 / 10, a := 1 },
       loadOp := "clear", storeOp := "store" }]

/-- The script `main`, call by call. -/
def main (navigator : Navigator) : Script Unit := do
  let some gpu := navigator.gpu
    | throw (.error "WebGPU is not supported by your browser")
  call (.requestAdapter "low-power")
  let adapter ← await (gpu.requestAdapter "low-power")
  let some adapter := adapter
    | throw (.error "Couldn't find a suitable adapter for WebGPU")
  call .requestDevice
  let device ← await adapter.requestDevice
  let some _device := device
    | throw (.error "Failed to request device from GPUAdapter")
  call (.getElementById "canvas-main")
  call (.getContext "webgpu")
  call .getPreferredCanvasFormat
  let canvasFormat := gpu.getPreferredCanvasFormat
  call (.configure canvasFormat)
  call (.createShaderModule "shaderModule" shaderModule)
  call (.createBuffer "storageVertexBuffer" storageVertexBufferDescriptor)
  call (.writeBuffer "storageVertexBuffer" 0 vertexData)
  call (.createRenderPipeline "rendererPipeline" (rendererPipelineDescriptor canvasFormat))
  call (.getBindGroupLayout "rendererPipeline" 0)
  call (.createBindGroup "bindGroup" bindGroupDescriptor)
  call .getCurrentTextureView
  call .createCommandEncoder
  call (.beginRenderPass renderPassDescriptor)
  call (.setPipeline "rendererPipeline")
  call (.setBindGroup 0 "bindGroup")
  call (.draw 6 none)
  call .endPass
  call .finish
  call (.submit ["commands"])

end StorageBufferAsAVertexBuffer

/-- The `pos` input of `vertexMain` for a vertex index: the attribute at shader
location 0 of the first vertex buffer layout of the pipeline bound to `pipeline`,
fetched from the buffer bound to `buffer`. -/
def positionInput (trace : List Op) (pipeline buffer : String) (vertexIndex : Nat) :
    Option Vec3 := do
  let descriptor ← createdRenderPipeline trace pipeline
  let layouts ← descriptor.vertex.buffers
  let layout ← layouts[0]?
  let attr ← layout.attributes.find? fun a => a.shaderLocation == 0
  let contents ← bufferContents trace buffer
  let floats ← fetchAttribute contents layout attr vertexIndex
  Vec3.ofFloats floats

/-- The position inputs of the vertices `0 .. vertexCount - 1` of a draw. -/
def positionInputs (trace : List Op) (pipeline buffer : String) (vertexCount : Nat) :
    Option (List Vec3) :=
  (List.range vertexCount).mapM (positionInput trace pipeline buffer)

/-- The two demos. -/
inductive Demo where
  | interStageVariables
  | storageBufferAsAVertexBuffer
  deriving DecidableEq, Repr

/-- The script of a demo. -/
def Demo.main : Demo → Navigator → Script Unit
  | .interStageVariables => InterStageVariables.main
  | .storageBufferAsAVertexBuffer => StorageBufferAsAVertexBuffer.main

/-- The calls a demo makes before it looks at `navigator.gpu`. -/
def Demo.preamble : Demo → List Op
  | .interStageVariables => [.log "Javascript is running..."]
  | .storageBufferAsAVertexBuffer => []

/-! ## Validation conditions -/

/-- The usage flags `usage` include the capability `flag`. -/
def hasUsage (usage flag : Nat) : Bool := usage &&& flag == flag

/-- The buffer capability a binding slot of the given kind requires. -/
def ResourceKind.requiredUsage : ResourceKind → Nat
  | .uniform => GPUBufferUsage.UNIFORM
  | .storageRead => GPUBufferUsage.STORAGE
  | .storageReadWrite => GPUBufferUsage.STORAGE

/-- The resource variables of a group that one stage of a pipeline names. -/
def stageBindings (trace : List Op) (moduleVar entryPoint : String) (group : Nat) :
    List BindingDecl :=
  match createdShaderModule trace moduleVar with
  | none => []
  | some module =>
    module.bindings.filter fun b =>
      b.group == group &&
        module.entryPoints.any fun e => e.name == entryPoint && e.uses.contains b.name

/-- The layout of a bind group of a pipeline created with `layout: "auto"`: the
resource variables of that group its two entry points name. -/
def derivedBindGroupLayout (trace : List Op) (pipeline : String) (group : Nat) :
    Option (List BindingDecl) := do
  let descriptor ← createdRenderPipeline trace pipeline
  if descriptor.layout = "auto" then
    some (stageBindings trace descriptor.vertex.module descriptor.vertex.entryPoint group ++
      stageBindings trace descriptor.fragment.module descriptor.fragment.entryPoint
        group).eraseDups
  else none

/-- The layout a bind group descriptor refers to. -/
def BindGroupDescriptor.resolvedLayout (trace : List Op) (descriptor : BindGroupDescriptor) :
    Option (List BindingDecl) :=
  match descriptor.layout with
  | .ofPipeline pipeline index => derivedBindGroupLayout trace pipeline index

/-- The capabilities one call demands of the buffers it touches. -/
def Op.bufferDemands (trace : List Op) : Op → List (String × Nat)
  | .writeBuffer buffer _ _ => [(buffer, GPUBufferUsage.COPY_DST)]
  | .setVertexBuffer _ buffer => [(buffer, GPUBufferUsage.VERTEX)]
  | .setIndexBuffer buffer => [(buffer, GPUBufferUsage.INDEX)]
  | .createBindGroup _ descriptor =>
    descriptor.entries.filterMap fun e =>
      (((descriptor.resolvedLayout trace).getD []).find? fun slot =>
        slot.binding == e.binding).map fun slot => (e.buffer, slot.kind.requiredUsage)
  | _ => []

/-- Every capability demanded of a buffer along a trace, in order. -/
def bufferDemands (trace : List Op) : List (String × Nat) :=
  trace.flatMap (Op.bufferDemands trace)

/-- The buffer capability is granted: the buffer was created with it. -/
def granted (trace : List Op) (demand : String × Nat) : Bool :=
  match createdBuffer trace demand.1 with
  | some descriptor => hasUsage descriptor.usage demand.2
  | none => false

/-- The vertex entry point of the pipeline bound to `pipeline`. -/
def vertexEntryPoint (trace : List Op) (pipeline : String) : Option EntryPoint := do
  let descriptor ← createdRenderPipeline trace pipeline
  let module ← createdShaderModule trace descriptor.vertex.module
  module.entryPoints.find? fun e =>
    e.stage == .vertex && e.name == descriptor.vertex.entryPoint

/-- The location-bound inputs of an entry point. -/
def EntryPoint.locationInputs (e : EntryPoint) : List (Nat × WgslType) :=
  e.params.filterMap fun p =>
    match p.attr with
    | .location index => some (index, p.type)
    | .builtin _ => none

/-- The attributes of all supplied vertex buffer layouts. -/
def suppliedAttributes (buffers : Option (List VertexBufferLayout)) : List VertexAttribute :=
  (buffers.getD []).flatMap fun layout => layout.attributes

/-- The `IncompatibleLayout` condition: no vertex layout is supplied although the
vertex entry point has a location-bound input, or more generally some
location-bound input has no attribute with its location and component count. -/
def incompatibleLayout (e : EntryPoint) (buffers : Option (List VertexBufferLayout)) : Bool :=
  (buffers.isNone && !e.locationInputs.isEmpty) ||
    e.locationInputs.any fun input =>
      !(suppliedAttributes buffers).any fun a =>
        a.shaderLocation == input.1 && a.format.components == input.2.components

/-- The `LayoutMismatch` condition: an entry for a slot the layout lacks, a slot of
the layout without entry, or a bound buffer without the capability its slot
requires. -/
def layoutMismatch (trace : List Op) (layout : List BindingDecl)
    (entries : List BindGroupEntry) : Bool :=
  (layout.any fun slot => !entries.any fun e => e.binding == slot.binding) ||
  (entries.any fun e => !layout.any fun slot => slot.binding == e.binding) ||
  (entries.any fun e => layout.any fun slot =>
    slot.binding == e.binding && !granted trace (e.buffer, slot.kind.requiredUsage))

/-- The contents of the buffer a bind group binds at a slot. -/
def boundBuffer (trace : List Op) (bindGroup : String) (binding : Nat) : Option Contents := do
  let descriptor ← createdBindGroup trace bindGroup
  let entry ← descriptor.entries.find? fun e => e.binding == binding
  bufferContents trace entry.buffer

/-- The clip-space position the vertex stage of a demo returns for a vertex index,
on the trace of that demo. -/
def Demo.clipPosition : Demo → List Op → Nat → Option Vec4
  | .interStageVariables, trace, vertexIndex => do
    let pos ← positionInput trace "cellPipeline" "vertexBuffer" vertexIndex
    let output ← InterStageVariables.vertexMain pos vertexIndex
    pure output.position
  | .storageBufferAsAVertexBuffer, trace, vertexIndex => do
    let contents ← boundBuffer trace "bindGroup" 0
    let vertices ← StorageBufferAsAVertexBuffer.verticesView contents
    StorageBufferAsAVertexBuffer.vs_main vertices vertexIndex

/-- A host on which every acquisition step succeeds. -/
def workingNavigator : Navigator where
  gpu := some
    { requestAdapter := fun _ =>
        .resolved (some { requestDevice := .resolved (some { label := "device" }) }),
      getPreferredCanvasFormat := "bgra8unorm" }

/-- A host without WebGPU. -/
def navigatorWithoutGpu : Navigator where
  gpu := none

/-- A host on which no adapter is found. -/
def navigatorWithoutAdapter : Navigator where
  gpu := some
    { requestAdapter := fun _ => .resolved none, getPreferredCanvasFormat := "bgra8unorm" }

/-- A host whose adapter yields no device. -/
def navigatorWithoutDevice : Navigator where
  gpu := some
    { requestAdapter := fun _ => .resolved (some { requestDevice := .resolved none }),
      getPreferredCanvasFormat := "bgra8unorm" }

/-- A host whose adapter request rejects. -/
def navigatorRejectingAdapter : Navigator where
  gpu := some
    { requestAdapter := fun _ => .rejected "adapter request rejected",
      getPreferredCanvasFormat := "bgra8unorm" }

/-- A host whose device request rejects. -/
def navigatorRejectingDevice : Navigator where
  gpu := some
    { requestAdapter := fun _ =>
        .resolved (some { requestDevice := .rejected "device request rejected" }),
      getPreferredCanvasFormat := "bgra8unorm" }

/-! ## The command sequence state machine -/

/-- The states of a command sequence. -/
inductive Phase where
  | Idle
  | Recording
  | PassOpen
  | PassClosed
  | Submitted
  | InvalidState
  deriving DecidableEq, Repr

/-- A command sequence: its phase, and whether `finish` has produced the command
buffer that `submit` hands to the queue. -/
structure Sequence where
  phase : Phase
  finished : Bool
  deriving DecidableEq, Repr

/-- Move to `next` when the sequence is in phase `expected`, else to `InvalidState`. -/
def Sequence.advance (s : Sequence) (expected next : Phase) (finished : Bool) : Sequence :=
  if s.phase = expected then { phase := next, finished := finished }
  else { phase := .InvalidState, finished := s.finished }

/-- The effect of one API call on the command sequence.  Calls that are not made on
the encoder, the pass or the queue leave it alone. -/
def Sequence.step (s : Sequence) : Op → Sequence
  | .createCommandEncoder => s.advance .Idle .Recording false
  | .beginRenderPass _ => s.advance .Recording .PassOpen false
  | .setPipeline _ => s.advance .PassOpen .PassOpen false
  | .setVertexBuffer _ _ => s.advance .PassOpen .PassOpen false
  | .setIndexBuffer _ => s.advance .PassOpen .PassOpen false
  | .setBindGroup _ _ => s.advance .PassOpen .PassOpen false
  | .draw _ _ => s.advance .PassOpen .PassOpen false
  | .drawIndexed _ _ => s.advance .PassOpen .PassOpen false
  | .endPass => s.advance .PassOpen .PassClosed false
  | .finish =>
    if s.finished then { phase := .InvalidState, finished := true }
    else s.advance .PassClosed .PassClosed true
  | .submit _ =>
    if s.finished then s.advance .PassClosed .Submitted true
    else { phase := .InvalidState, finished := false }
  | _ => s

/-- The sequence before any call. -/
def Sequence.initial : Sequence := { phase := .Idle, finished := false }

/-- The phases a trace goes through, the initial one included. -/
def phases : Sequence → List Op → List Phase
  | s, [] => [s.phase]
  | s, op :: rest => s.phase :: phases (s.step op) rest

/-- The changes of phase in a list of phases, in order. -/
def transitions : List Phase → List (Phase × Phase)
  | p :: q :: rest =>
    if p = q then transitions (q :: rest) else (p, q) :: transitions (q :: rest)
  | _ => []

/-- The calls that belong to command recording and submission. -/
def Op.isRecording : Op → Bool
  | .getCurrentTextureView => true
  | .createCommandEncoder => true
  | .beginRenderPass _ => true
  | .setPipeline _ => true
  | .setVertexBuffer _ _ => true
  | .setIndexBuffer _ => true
  | .setBindGroup _ _ => true
  | .draw _ _ => true
  | .drawIndexed _ _ => true
  | .endPass => true
  | .finish => true
  | .submit _ => true
  | _ => false

/-- The calls that use the device once it has been acquired. -/
def Op.usesDevice : Op → Bool
  | .log _ => false
  | .requestAdapter _ => false
  | .requestDevice => false
  | .getElementById _ => false
  | .getContext _ => false
  | .getPreferredCanvasFormat => false
  | _ => true

end WebGPU

namespace WebGPU

/-! ## Running the scripts -/

/-- The calls of the inter-stage demo when the device is acquired, in order. -/
theorem InterStageVariables.interStage_run_ok (navigator : Navigator) (gpu : GPU)
    (adapter : GPUAdapter) (device : GPUDevice)
    (hgpu : navigator.gpu = some gpu)
    (hadapter : gpu.requestAdapter "low-power" = .resolved (some adapter))
    (hdevice : adapter.requestDevice = .resolved (some device)) :
    (run (main navigator)).trace =
      [.log "Javascript is running...", .requestAdapter "low-power", .requestDevice,
       .getElementById "canvas-main", .getContext "webgpu", .getPreferredCanvasFormat,
       .configure gpu.getPreferredCanvasFormat,
       .createBuffer "vertexBuffer" vertexBufferDescriptor,
       .writeBuffer "vertexBuffer" 0 vertices,
       .createShaderModule "cellShaderModule" cellShaderModule,
       .createRenderPipeline "cellPipeline" (cellPipelineDescriptor gpu.getPreferredCanvasFormat),
       .createCommandEncoder, .getCurrentTextureView,
       .beginRenderPass renderPassDescriptor,
       .setPipeline "cellPipeline", .setVertexBuffer 0 "vertexBuffer", .draw 6 none,
       .endPass, .finish, .submit ["commandBuffer"]] ∧
    (run (main navigator)).result = .ok () := by
  unfold main
  simp only [hgpu, hadapter, hdevice, await, pure_bind]
  exact ⟨rfl, rfl⟩

/-- The calls of the storage-buffer demo when the device is acquired, in order. -/
theorem StorageBufferAsAVertexBuffer.storageBuffer_run_ok (navigator : Navigator) (gpu : GPU)
    (adapter : GPUAdapter) (device : GPUDevice)
    (hgpu : navigator.gpu = some gpu)
    (hadapter : gpu.requestAdapter "low-power" = .resolved (some adapter))
    (hdevice : adapter.requestDevice = .resolved (some device)) :
    (run (main navigator)).trace =
      [.requestAdapter "low-power", .requestDevice,
       .getElementById "canvas-main", .getContext "webgpu", .getPreferredCanvasFormat,
       .configure gpu.getPreferredCanvasFormat,
       .createShaderModule "shaderModule" shaderModule,
       .createBuffer "storageVertexBuffer" storageVertexBufferDescriptor,
       .writeBuffer "storageVertexBuffer" 0 vertexData,
       .createRenderPipeline "rendererPipeline"
         (rendererPipelineDescriptor gpu.getPreferredCanvasFormat),
       .getBindGroupLayout "rendererPipeline" 0,
       .createBindGroup "bindGroup" bindGroupDescriptor,
       .getCurrentTextureView, .createCommandEncoder,
       .beginRenderPass renderPassDescriptor,
       .setPipeline "rendererPipeline", .setBindGroup 0 "bindGroup", .draw 6 none,
       .endPass, .finish, .submit ["commands"]] ∧
    (run (main navigator)).result = .ok () := by
  unfold main
  simp only [hgpu, hadapter, hdevice, await, pure_bind]
  exact ⟨rfl, rfl⟩

/-- Both demos end normally when the device is acquired. -/
theorem Demo.acquired_run_ok (demo : Demo) (navigator : Navigator) (gpu : GPU)
    (adapter : GPUAdapter) (device : GPUDevice)
    (hgpu : navigator.gpu = some gpu)
    (hadapter : gpu.requestAdapter "low-power" = .resolved (some adapter))
    (hdevice : adapter.requestDevice = .resolved (some device)) :
    (run (demo.main navigator)).result = .ok () := by
  cases demo
  · exact (InterStageVariables.interStage_run_ok navigator gpu adapter device hgpu hadapter
      hdevice).2
  · exact (StorageBufferAsAVertexBuffer.storageBuffer_run_ok navigator gpu adapter device hgpu
      hadapter hdevice).2

/-- Outcome of a demo on a host without `navigator.gpu`. -/
theorem Demo.run_main_no_gpu (demo : Demo) (navigator : Navigator)
    (hgpu : navigator.gpu = none) :
    (run (demo.main navigator)).result =
      .error (.error "WebGPU is not supported by your browser") ∧
    (run (demo.main navigator)).trace = demo.preamble := by
  cases demo
  · unfold Demo.main InterStageVariables.main
    simp only [hgpu]
    exact ⟨rfl, rfl⟩
  · unfold Demo.main StorageBufferAsAVertexBuffer.main
    simp only [hgpu]
    exact ⟨rfl, rfl⟩

/-- Outcome of a demo when the adapter request resolves to `null`. -/
theorem Demo.run_main_no_adapter (demo : Demo) (navigator : Navigator) (gpu : GPU)
    (hgpu : navigator.gpu = some gpu)
    (hadapter : gpu.requestAdapter "low-power" = .resolved none) :
    (run (demo.main navigator)).result =
      .error (.error "Couldn't find a suitable adapter for WebGPU") ∧
    (run (demo.main navigator)).trace = demo.preamble ++ [.requestAdapter "low-power"] := by
  cases demo
  · unfold Demo.main InterStageVariables.main
    simp only [hgpu, hadapter, await, pure_bind]
    exact ⟨rfl, rfl⟩
  · unfold Demo.main StorageBufferAsAVertexBuffer.main
    simp only [hgpu, hadapter, await, pure_bind]
    exact ⟨rfl, rfl⟩

/-- Outcome of a demo when the device request resolves to no device. -/
theorem Demo.run_main_no_device (demo : Demo) (navigator : Navigator) (gpu : GPU)
    (adapter : GPUAdapter)
    (hgpu : navigator.gpu = some gpu)
    (hadapter : gpu.requestAdapter "low-power" = .resolved (some adapter))
    (hdevice : adapter.requestDevice = .resolved none) :
    (run (demo.main navigator)).result =
      .error (.error "Failed to request device from GPUAdapter") ∧
    (run (demo.main navigator)).trace =
      demo.preamble ++ [.requestAdapter "low-power", .requestDevice] := by
  cases demo
  · unfold Demo.main InterStageVariables.main
    simp only [hgpu, hadapter, hdevice, await, pure_bind]
    exact ⟨rfl, rfl⟩
  · unfold Demo.main StorageBufferAsAVertexBuffer.main
    simp only [hgpu, hadapter, hdevice, await, pure_bind]
    exact ⟨rfl, rfl⟩

/-- Outcome of a demo when the adapter request rejects. -/
theorem Demo.run_main_adapter_rejected (demo : Demo) (navigator : Navigator) (gpu : GPU)
    (reason : String)
    (hgpu : navigator.gpu = some gpu)
    (hadapter : gpu.requestAdapter "low-power" = .rejected reason) :
    (run (demo.main navigator)).result = .error (.rejection reason) ∧
    (run (demo.main navigator)).trace = demo.preamble ++ [.requestAdapter "low-power"] := by
  cases demo
  · unfold Demo.main InterStageVariables.main
    simp only [hgpu, hadapter, await, pure_bind]
    exact ⟨rfl, rfl⟩
  · unfold Demo.main StorageBufferAsAVertexBuffer.main
    simp only [hgpu, hadapter, await, pure_bind]
    exact ⟨rfl, rfl⟩

/-- Outcome of a demo when the device request rejects. -/
theorem Demo.run_main_device_rejected (demo : Demo) (navigator : Navigator) (gpu : GPU)
    (adapter : GPUAdapter) (reason : String)
    (hgpu : navigator.gpu = some gpu)
    (hadapter : gpu.requestAdapter "low-power" = .resolved (some adapter))
    (hdevice : adapter.requestDevice = .rejected reason) :
    (run (demo.main navigator)).result = .error (.rejection reason) ∧
    (run (demo.main navigator)).trace =
      demo.preamble ++ [.requestAdapter "low-power", .requestDevice] := by
  cases demo
  · unfold Demo.main InterStageVariables.main
    simp only [hgpu, hadapter, hdevice, await, pure_bind]
    exact ⟨rfl, rfl⟩
  · unfold Demo.main StorageBufferAsAVertexBuffer.main
    simp only [hgpu, hadapter, hdevice, await, pure_bind]
    exact ⟨rfl, rfl⟩

/-- C1. In both demos, once the device is acquired, the recording calls `main` makes
are, in order: the current output view, one render pass with a single colour
attachment (load-op clear, store-op store, the demo's clear colour), the pipeline,
the vertex buffer at slot 0 (inter-stage demo) or the bind group at group 0
(storage-buffer demo), one non-indexed draw of 6 vertices without an instance
count, the end of the pass, `finish`, and the submission of the single command
buffer; the command encoder is created once, before the pass is opened.  Run
through the command sequence state machine, the whole trace takes each of
Idle -> Recording -> PassOpen -> PassClosed -> Submitted once and never enters
InvalidState. -/
theorem recording_sequence (navigator : Navigator) (gpu : GPU)
    (adapter : GPUAdapter) (device : GPUDevice)
    (hgpu : navigator.gpu = some gpu)
    (hadapter : gpu.requestAdapter "low-power" = .resolved (some adapter))
    (hdevice : adapter.requestDevice = .resolved (some device)) :
    ((run (Demo.main .interStageVariables navigator)).trace.filter
        (fun op => op.isRecording && op != .createCommandEncoder) =
      [.getCurrentTextureView,
       .beginRenderPass
         { label := none,
           colorAttachments :=
             [{ clearValue := { r := 0, g := 0, b := 3 / 10, a := 1 },
                loadOp := "clear", storeOp := "store" }] },
       .setPipeline "cellPipeline", .setVertexBuffer 0 "vertexBuffer", .draw 6 none,
       .endPass, .finish, .submit ["commandBuffer"]]) ∧
    ((run (Demo.main .storageBufferAsAVertexBuffer navigator)).trace.filter
        (fun op => op.isRecording && op != .createCommandEncoder) =
      [.getCurrentTextureView,
       .beginRenderPass
         { label := some "main",
           colorAttachments :=
             [{ clearValue := { r := 3 / 10, g := 3 / 10, b := 3 / 10, a := 1 },
                loadOp := "clear", storeOp := "store" }] },
       .setPipeline "rendererPipeline", .setBindGroup 0 "bindGroup", .draw 6 none,
       .endPass, .finish, .submit ["commands"]]) ∧
    (((run (Demo.main .interStageVariables navigator)).trace.filter Op.isRecording).take 3 =
      [.createCommandEncoder, .getCurrentTextureView,
       .beginRenderPass InterStageVariables.renderPassDescriptor]) ∧
    (((run (Demo.main .storageBufferAsAVertexBuffer navigator)).trace.filter
        Op.isRecording).take 3 =
      [.getCurrentTextureView, .createCommandEncoder,
       .beginRenderPass StorageBufferAsAVertexBuffer.renderPassDescriptor]) ∧
    (∀ demo : Demo,
      (run (demo.main navigator)).result = .ok () ∧
      (run (demo.main navigator)).trace.count .createCommandEncoder = 1 ∧
      transitions (phases Sequence.initial (run (demo.main navigator)).trace) =
        [(.Idle, .Recording), (.Recording, .PassOpen), (.PassOpen, .PassClosed),
         (.PassClosed, .Submitted)] ∧
      Phase.InvalidState ∉ phases Sequence.initial (run (demo.main navigator)).trace) := by
  have hA := InterStageVariables.interStage_run_ok navigator gpu adapter device hgpu hadapter hdevice
  have hB := StorageBufferAsAVertexBuffer.storageBuffer_run_ok navigator gpu adapter device hgpu
    hadapter hdevice
  refine ⟨?_, ?_, ?_, ?_, ?_⟩
  · rw [Demo.main, hA.1]; rfl
  · rw [Demo.main, hB.1]; rfl
  · rw [Demo.main, hA.1]; rfl
  · rw [Demo.main, hB.1]; rfl
  · intro demo
    cases demo
    · rw [Demo.main, hA.1, hA.2]
      refine ⟨rfl, rfl, rfl, ?_⟩
      simp [phases, Sequence.step, Sequence.advance, Sequence.initial]
    · rw [Demo.main, hB.1, hB.2]
      refine ⟨rfl, rfl, rfl, ?_⟩
      simp [phases, Sequence.step, Sequence.advance, Sequence.initial]

/-- Witness of `recording_sequence` on a host where acquisition succeeds. -/
theorem recording_sequence_witness :
    (run (Demo.main .interStageVariables workingNavigator)).result = .ok () ∧
    (run (Demo.main .storageBufferAsAVertexBuffer workingNavigator)).result = .ok () ∧
    transitions (phases Sequence.initial
        (run (Demo.main .storageBufferAsAVertexBuffer workingNavigator)).trace) =
      [(.Idle, .Recording), (.Recording, .PassOpen), (.PassOpen, .PassClosed),
       (.PassClosed, .Submitted)] :=
  have h := (recording_sequence workingNavigator _ _ _ rfl rfl rfl).2.2.2.2
  ⟨(h .interStageVariables).1, (h .storageBufferAsAVertexBuffer).1,
   (h .storageBufferAsAVertexBuffer).2.2.1⟩

/-- C2, as stated, fails on a host whose adapter request rejects: `main` fails,
with the host's reason and none of its own three messages, although
`navigator.gpu` is present, the adapter request has not resolved to no adapter and
no device request has resolved to no device. -/
theorem acquisition_failures_counterexample :
    ¬ (∀ (demo : Demo) (navigator : Navigator),
        (run (demo.main navigator)).result ≠ .ok () ↔
          (navigator.gpu = none ∨
           (∃ gpu, navigator.gpu = some gpu ∧
              gpu.requestAdapter "low-power" = .resolved none) ∨
           (∃ gpu adapter, navigator.gpu = some gpu ∧
              gpu.requestAdapter "low-power" = .resolved (some adapter) ∧
              adapter.requestDevice = .resolved none))) ∧
    (run (Demo.main .interStageVariables navigatorRejectingAdapter)).result =
      .error (.rejection "adapter request rejected") ∧
    (run (Demo.main .interStageVariables navigatorRejectingAdapter)).trace =
      [.log "Javascript is running...", .requestAdapter "low-power"] ∧
    (run (Demo.main .storageBufferAsAVertexBuffer navigatorRejectingDevice)).result =
      .error (.rejection "device request rejected") := by
  refine ⟨?_, rfl, rfl, rfl⟩
  intro h
  have hfail : (run (Demo.main .interStageVariables navigatorRejectingAdapter)).result ≠
      .ok () := by
    have hr : (run (Demo.main .interStageVariables navigatorRejectingAdapter)).result =
        .error (.rejection "adapter request rejected") := rfl
    rw [hr]
    exact fun hcontra => Except.noConfusion hcontra
  rcases (h .interStageVariables navigatorRejectingAdapter).1 hfail with h1 | h2 | h3
  · exact Option.noConfusion h1
  · obtain ⟨gpu, hgpu, hadapter⟩ := h2
    have hg := Option.some.inj hgpu
    subst hg
    exact Settled.noConfusion hadapter
  · obtain ⟨gpu, adapter, hgpu, hadapter, -⟩ := h3
    have hg := Option.some.inj hgpu
    subst hg
    exact Settled.noConfusion hadapter

/-- C2, amended. In both demos `main` fails exactly when `navigator.gpu` is absent,
or the adapter request resolves to no adapter or rejects, or the device request
resolves to no device or rejects.  The three checks come in that order, each with
its own message: without `navigator.gpu` no adapter is requested, without an
adapter no device is requested.  A rejected request fails `main` with the
request's own reason, unchanged.  Each request is made at most once, every failure
reaches the caller, and a failed run makes no call that uses the device
(configure, buffer creation or write, shader or pipeline creation, recording,
submit). -/
theorem acquisition_failures (demo : Demo) (navigator : Navigator) :
    ((run (demo.main navigator)).result ≠ .ok () ↔
      (navigator.gpu = none ∨
       (∃ gpu, navigator.gpu = some gpu ∧
          (gpu.requestAdapter "low-power" = .resolved none ∨
           ∃ reason, gpu.requestAdapter "low-power" = .rejected reason)) ∨
       (∃ gpu adapter, navigator.gpu = some gpu ∧
          gpu.requestAdapter "low-power" = .resolved (some adapter) ∧
          (adapter.requestDevice = .resolved none ∨
           ∃ reason, adapter.requestDevice = .rejected reason)))) ∧
    (navigator.gpu = none →
      (run (demo.main navigator)).result =
        .error (.error "WebGPU is not supported by your browser") ∧
      (run (demo.main navigator)).trace = demo.preamble) ∧
    (∀ gpu, navigator.gpu = some gpu → gpu.requestAdapter "low-power" = .resolved none →
      (run (demo.main navigator)).result =
        .error (.error "Couldn't find a suitable adapter for WebGPU") ∧
      (run (demo.main navigator)).trace = demo.preamble ++ [.requestAdapter "low-power"]) ∧
    (∀ gpu reason, navigator.gpu = some gpu →
      gpu.requestAdapter "low-power" = .rejected reason →
      (run (demo.main navigator)).result = .error (.rejection reason) ∧
      (run (demo.main navigator)).trace = demo.preamble ++ [.requestAdapter "low-power"]) ∧
    (∀ gpu adapter, navigator.gpu = some gpu →
      gpu.requestAdapter "low-power" = .resolved (some adapter) →
      adapter.requestDevice = .resolved none →
      (run (demo.main navigator)).result =
        .error (.error "Failed to request device from GPUAdapter") ∧
      (run (demo.main navigator)).trace =
        demo.preamble ++ [.requestAdapter "low-power", .requestDevice]) ∧
    (∀ gpu adapter reason, navigator.gpu = some gpu →
      gpu.requestAdapter "low-power" = .resolved (some adapter) →
      adapter.requestDevice = .rejected reason →
      (run (demo.main navigator)).result = .error (.rejection reason) ∧
      (run (demo.main navigator)).trace =
        demo.preamble ++ [.requestAdapter "low-power", .requestDevice]) ∧
    ((run (demo.main navigator)).result ≠ .ok () →
      ∀ op ∈ (run (demo.main navigator)).trace, op.usesDevice = false) := by
  have hpre : ∀ op ∈ demo.preamble, op.usesDevice = false := by
    cases demo <;> simp [Demo.preamble, Op.usesDevice]
  have hone : ∀ op ∈ demo.preamble ++ [Op.requestAdapter "low-power"],
      op.usesDevice = false := by
    intro op hop
    rcases List.mem_append.1 hop with h | h
    · exact hpre op h
    · simp at h; subst h; rfl
  have htwo : ∀ op ∈ demo.preamble ++ [Op.requestAdapter "low-power", Op.requestDevice],
      op.usesDevice = false := by
    intro op hop
    rcases List.mem_append.1 hop with h | h
    · exact hpre op h
    · simp at h; rcases h with h | h <;> subst h <;> rfl
  refine ⟨?_, fun h => Demo.run_main_no_gpu demo navigator h,
    fun gpu h1 h2 => Demo.run_main_no_adapter demo navigator gpu h1 h2,
    fun gpu reason h1 h2 => Demo.run_main_adapter_rejected demo navigator gpu reason h1 h2,
    fun gpu adapter h1 h2 h3 => Demo.run_main_no_device demo navigator gpu adapter h1 h2 h3,
    fun gpu adapter reason h1 h2 h3 =>
      Demo.run_main_device_rejected demo navigator gpu adapter reason h1 h2 h3,
    ?_⟩
  · rcases hgpu : navigator.gpu with _ | gpu
    · simp [(Demo.run_main_no_gpu demo navigator hgpu).1]
    · rcases hadapter : gpu.requestAdapter "low-power" with (_ | adapter) | reason
      · simp [(Demo.run_main_no_adapter demo navigator gpu hgpu hadapter).1, hadapter]
      · rcases hdevice : adapter.requestDevice with (_ | device) | reason
        · simp [(Demo.run_main_no_device demo navigator gpu adapter hgpu hadapter hdevice).1,
            hadapter, hdevice]
        · simp [Demo.acquired_run_ok demo navigator gpu adapter device hgpu hadapter hdevice,
            hadapter, hdevice]
        · simp [(Demo.run_main_device_rejected demo navigator gpu adapter reason hgpu
            hadapter hdevice).1, hadapter, hdevice]
      · simp [(Demo.run_main_adapter_rejected demo navigator gpu reason hgpu hadapter).1,
          hadapter]
  · intro hfail op hop
    rcases hgpu : navigator.gpu with _ | gpu
    · rw [(Demo.run_main_no_gpu demo navigator hgpu).2] at hop
      exact hpre op hop
    · rcases hadapter : gpu.requestAdapter "low-power" with (_ | adapter) | reason
      · rw [(Demo.run_main_no_adapter demo navigator gpu hgpu hadapter).2] at hop
        exact hone op hop
      · rcases hdevice : adapter.requestDevice with (_ | device) | reason
        · rw [(Demo.run_main_no_device demo navigator gpu adapter hgpu hadapter hdevice).2]
            at hop
          exact htwo op hop
        · exact absurd
            (Demo.acquired_run_ok demo navigator gpu adapter device hgpu hadapter hdevice)
            hfail
        · rw [(Demo.run_main_device_rejected demo navigator gpu adapter reason hgpu
            hadapter hdevice).2] at hop
          exact htwo op hop
      · rw [(Demo.run_main_adapter_rejected demo navigator gpu reason hgpu hadapter).2] at hop
        exact hone op hop

/-- Witness of `acquisition_failures`: the three checks and a rejection on concrete
hosts, each with its own error and its own trace. -/
theorem acquisition_failures_witness :
    ((run (Demo.main .interStageVariables navigatorWithoutGpu)).result =
        .error (.error "WebGPU is not supported by your browser") ∧
      (run (Demo.main .interStageVariables navigatorWithoutGpu)).trace =
        [.log "Javascript is running..."]) ∧
    ((run (Demo.main .storageBufferAsAVertexBuffer navigatorWithoutAdapter)).result =
        .error (.error "Couldn't find a suitable adapter for WebGPU") ∧
      (run (Demo.main .storageBufferAsAVertexBuffer navigatorWithoutAdapter)).trace =
        [.requestAdapter "low-power"]) ∧
    ((run (Demo.main .interStageVariables navigatorWithoutDevice)).result =
        .error (.error "Failed to request device from GPUAdapter") ∧
      (run (Demo.main .interStageVariables navigatorWithoutDevice)).trace =
        [.log "Javascript is running...", .requestAdapter "low-power", .requestDevice]) ∧
    ((run (Demo.main .storageBufferAsAVertexBuffer navigatorRejectingDevice)).result =
        .error (.rejection "device request rejected") ∧
      (run (Demo.main .storageBufferAsAVertexBuffer navigatorRejectingDevice)).trace =
        [.requestAdapter "low-power", .requestDevice]) :=
  ⟨(acquisition_failures .interStageVariables navigatorWithoutGpu).2.1 rfl,
   (acquisition_failures .storageBufferAsAVertexBuffer navigatorWithoutAdapter).2.2.1 _ rfl rfl,
   (acquisition_failures .interStageVariables navigatorWithoutDevice).2.2.2.2.1 _ _ rfl rfl rfl,
   (acquisition_failures .storageBufferAsAVertexBuffer navigatorRejectingDevice).2.2.2.2.2.1
     _ _ _ rfl rfl rfl⟩

/-- C3. The inter-stage demo writes its 18 floats once, at offset 0, and the six
position records the draw of 6 vertices fetches from the buffer through the
pipeline's layout are (0,0,0), (1,0,0), (1,1,0), (0,0,0), (1,1,0), (0,1,0).
Assembled as a triangle list they are two triangles in the plane z = 0, both
counter-clockwise with area 1/2 (doubled signed area 1); a point lies in both
exactly when it is on the diagonal from (0,0) to (1,1), and in at least one
exactly when it is in the unit square. -/
theorem unit_square_geometry (navigator : Navigator) (gpu : GPU)
    (adapter : GPUAdapter) (device : GPUDevice)
    (hgpu : navigator.gpu = some gpu)
    (hadapter : gpu.requestAdapter "low-power" = .resolved (some adapter))
    (hdevice : adapter.requestDevice = .resolved (some device)) :
    bufferWrites (run (InterStageVariables.main navigator)).trace "vertexBuffer" =
      [(0, [0, 0, 0, 1, 0, 0, 1, 1, 0, 0, 0, 0, 1, 1, 0, 0, 1, 0])] ∧
    ∃ p0 p1 p2 p3 p4 p5 : Vec3,
      positionInputs (run (InterStageVariables.main navigator)).trace
        "cellPipeline" "vertexBuffer" 6 = some [p0, p1, p2, p3, p4, p5] ∧
      [p0, p1, p2, p3, p4, p5] =
        [{ x := 0, y := 0, z := 0 }, { x := 1, y := 0, z := 0 }, { x := 1, y := 1, z := 0 },
         { x := 0, y := 0, z := 0 }, { x := 1, y := 1, z := 0 }, { x := 0, y := 1, z := 0 }] ∧
      triangleList [p0, p1, p2, p3, p4, p5] =
        [{ a := p0, b := p1, c := p2 }, { a := p3, b := p4, c := p5 }] ∧
      (∀ p ∈ [p0, p1, p2, p3, p4, p5], p.z = 0) ∧
      Triangle.doubleArea { a := p0, b := p1, c := p2 } = 1 ∧
      Triangle.doubleArea { a := p3, b := p4, c := p5 } = 1 ∧
      (∀ x y : Num,
        (Triangle.contains { a := p0, b := p1, c := p2 } x y ∧
          Triangle.contains { a := p3, b := p4, c := p5 } x y ↔
            x = y ∧ 0 ≤ x ∧ x ≤ 1)) ∧
      (∀ x y : Num,
        (Triangle.contains { a := p0, b := p1, c := p2 } x y ∨
          Triangle.contains { a := p3, b := p4, c := p5 } x y ↔
            0 ≤ x ∧ x ≤ 1 ∧ 0 ≤ y ∧ y ≤ 1)) := by
  have hA := InterStageVariables.interStage_run_ok navigator gpu adapter device hgpu hadapter hdevice
  rw [hA.1]
  refine ⟨rfl, ⟨0, 0, 0⟩, ⟨1, 0, 0⟩, ⟨1, 1, 0⟩, ⟨0, 0, 0⟩, ⟨1, 1, 0⟩, ⟨0, 1, 0⟩,
    rfl, rfl, rfl, ?_, ?_, ?_, ?_, ?_⟩
  · intro p hp
    simp only [List.mem_cons, List.mem_singleton, List.not_mem_nil, or_false] at hp
    rcases hp with h | h | h | h | h | h <;> subst h <;> rfl
  · simp [Triangle.doubleArea, edgeFunction]
  · simp [Triangle.doubleArea, edgeFunction]
  · intro x y
    simp only [Triangle.contains, edgeFunction]
    constructor
    · rintro ⟨h1 | h1, h2 | h2⟩ <;>
        refine ⟨?_, ?_, ?_⟩ <;> (try norm_num at h1 h2) <;> linarith [h1.1, h1.2.1, h1.2.2, h2.1, h2.2.1, h2.2.2]
    · rintro ⟨rfl, h0, h1⟩
      refine ⟨Or.inl ⟨?_, ?_, ?_⟩, Or.inl ⟨?_, ?_, ?_⟩⟩ <;> norm_num <;> linarith
  · intro x y
    simp only [Triangle.contains, edgeFunction]
    constructor
    · rintro ((h | h) | (h | h)) <;>
        refine ⟨?_, ?_, ?_, ?_⟩ <;> (try norm_num at h) <;> linarith [h.1, h.2.1, h.2.2]
    · rintro ⟨hx0, hx1, hy0, hy1⟩
      rcases le_total y x with hyx | hxy
      · exact Or.inl (Or.inl ⟨by norm_num; linarith, by norm_num; linarith,
          by norm_num; linarith⟩)
      · exact Or.inr (Or.inl ⟨by norm_num; linarith, by norm_num; linarith,
          by norm_num; linarith⟩)

/-- Witness of `unit_square_geometry` on a host where acquisition succeeds: the
draw fetches six positions. -/
theorem unit_square_geometry_witness :
    ∃ positions : List Vec3,
      positionInputs (run (InterStageVariables.main workingNavigator)).trace
        "cellPipeline" "vertexBuffer" 6 = some positions ∧ positions.length = 6 := by
  obtain ⟨p0, p1, p2, p3, p4, p5, h, -⟩ :=
    (unit_square_geometry workingNavigator _ _ _ rfl rfl rfl).2
  exact ⟨[p0, p1, p2, p3, p4, p5], h, rfl⟩

/-- C4. In both demos the buffer is created with every capability later demanded of
it.  The inter-stage demo creates `vertexBuffer` with VERTEX | COPY_DST and the
only demands on a buffer are the write (COPY_DST) and the binding as vertex buffer
(VERTEX); the storage-buffer demo creates `storageVertexBuffer` with
STORAGE | COPY_DST and the only demands are the write (COPY_DST) and the binding
to the read-only storage slot (STORAGE). -/
theorem usage_covers_operations (navigator : Navigator) (gpu : GPU)
    (adapter : GPUAdapter) (device : GPUDevice)
    (hgpu : navigator.gpu = some gpu)
    (hadapter : gpu.requestAdapter "low-power" = .resolved (some adapter))
    (hdevice : adapter.requestDevice = .resolved (some device)) :
    ((createdBuffer (run (Demo.main .interStageVariables navigator)).trace
        "vertexBuffer").map (fun d => d.usage) =
        some (GPUBufferUsage.VERTEX ||| GPUBufferUsage.COPY_DST) ∧
      bufferDemands (run (Demo.main .interStageVariables navigator)).trace =
        [("vertexBuffer", GPUBufferUsage.COPY_DST), ("vertexBuffer", GPUBufferUsage.VERTEX)]) ∧
    ((createdBuffer (run (Demo.main .storageBufferAsAVertexBuffer navigator)).trace
        "storageVertexBuffer").map (fun d => d.usage) =
        some (GPUBufferUsage.STORAGE ||| GPUBufferUsage.COPY_DST) ∧
      bufferDemands (run (Demo.main .storageBufferAsAVertexBuffer navigator)).trace =
        [("storageVertexBuffer", GPUBufferUsage.COPY_DST),
         ("storageVertexBuffer", GPUBufferUsage.STORAGE)]) ∧
    ∀ demo : Demo, ∀ demand ∈ bufferDemands (run (demo.main navigator)).trace,
      granted (run (demo.main navigator)).trace demand = true := by
  have hA := InterStageVariables.interStage_run_ok navigator gpu adapter device hgpu hadapter hdevice
  have hB := StorageBufferAsAVertexBuffer.storageBuffer_run_ok navigator gpu adapter device hgpu
    hadapter hdevice
  have dA : bufferDemands (run (Demo.main .interStageVariables navigator)).trace =
      [("vertexBuffer", GPUBufferUsage.COPY_DST), ("vertexBuffer", GPUBufferUsage.VERTEX)] := by
    rw [Demo.main, hA.1]; rfl
  have dB : bufferDemands (run (Demo.main .storageBufferAsAVertexBuffer navigator)).trace =
      [("storageVertexBuffer", GPUBufferUsage.COPY_DST),
       ("storageVertexBuffer", GPUBufferUsage.STORAGE)] := by
    rw [Demo.main, hB.1]; rfl
  refine ⟨⟨?_, dA⟩, ⟨?_, dB⟩, ?_⟩
  · rw [Demo.main, hA.1]; rfl
  · rw [Demo.main, hB.1]; rfl
  · intro demo demand hd
    cases demo
    · rw [dA] at hd
      rw [Demo.main, hA.1]
      simp only [List.mem_cons, List.mem_singleton, List.not_mem_nil, or_false] at hd
      rcases hd with h | h <;> subst h <;> rfl
    · rw [dB] at hd
      rw [Demo.main, hB.1]
      simp only [List.mem_cons, List.mem_singleton, List.not_mem_nil, or_false] at hd
      rcases hd with h | h <;> subst h <;> rfl

/-- Witness of `usage_covers_operations` on a host where acquisition succeeds. -/
theorem usage_covers_operations_witness :
    granted (run (Demo.main .storageBufferAsAVertexBuffer workingNavigator)).trace
      ("storageVertexBuffer", GPUBufferUsage.STORAGE) = true :=
  (usage_covers_operations workingNavigator _ _ _ rfl rfl rfl).2.2
    .storageBufferAsAVertexBuffer _
    (by rw [(usage_covers_operations workingNavigator _ _ _ rfl rfl rfl).2.1.2]; simp)

/-- C5. In both demos the single buffer write is in bounds and fills the buffer.
The buffer is created with the byte length of the host data as its size, 72 =
6 x 3 x 4 bytes in the inter-stage demo and 96 = 6 x 4 x 4 bytes in the
storage-buffer demo, and the data is written at offset 0: offset plus data length
equals the size, the out-of-bounds condition does not hold, and afterwards the
buffer holds exactly the data. -/
theorem write_fills_buffer (navigator : Navigator) (gpu : GPU)
    (adapter : GPUAdapter) (device : GPUDevice)
    (hgpu : navigator.gpu = some gpu)
    (hadapter : gpu.requestAdapter "low-power" = .resolved (some adapter))
    (hdevice : adapter.requestDevice = .resolved (some device)) :
    (∃ size offset data,
      (createdBuffer (run (Demo.main .interStageVariables navigator)).trace
        "vertexBuffer").map (fun d => d.size) = some size ∧
      bufferWrites (run (Demo.main .interStageVariables navigator)).trace "vertexBuffer" =
        [(offset, data)] ∧
      data = InterStageVariables.vertices ∧ offset = 0 ∧
      size = byteLength data ∧ size = 72 ∧ size = 6 * 3 * 4 ∧
      offset + byteLength data = size ∧
      outOfBounds size offset (byteLength data) = false ∧
      bufferContents (run (Demo.main .interStageVariables navigator)).trace "vertexBuffer" =
        some data) ∧
    (∃ size offset data,
      (createdBuffer (run (Demo.main .storageBufferAsAVertexBuffer navigator)).trace
        "storageVertexBuffer").map (fun d => d.size) = some size ∧
      bufferWrites (run (Demo.main .storageBufferAsAVertexBuffer navigator)).trace
        "storageVertexBuffer" = [(offset, data)] ∧
      data = StorageBufferAsAVertexBuffer.vertexData ∧ offset = 0 ∧
      size = byteLength data ∧ size = 96 ∧ size = 6 * 4 * 4 ∧
      offset + byteLength data = size ∧
      outOfBounds size offset (byteLength data) = false ∧
      bufferContents (run (Demo.main .storageBufferAsAVertexBuffer navigator)).trace
        "storageVertexBuffer" = some data) := by
  have hA := InterStageVariables.interStage_run_ok navigator gpu adapter device hgpu hadapter hdevice
  have hB := StorageBufferAsAVertexBuffer.storageBuffer_run_ok navigator gpu adapter device hgpu
    hadapter hdevice
  constructor
  · rw [Demo.main, hA.1]
    exact ⟨72, 0, InterStageVariables.vertices, rfl, rfl, rfl, rfl, rfl, rfl, rfl, rfl, rfl, rfl⟩
  · rw [Demo.main, hB.1]
    exact ⟨96, 0, StorageBufferAsAVertexBuffer.vertexData, rfl, rfl, rfl, rfl, rfl, rfl, rfl,
      rfl, rfl, rfl⟩

/-- Witness of `write_fills_buffer` on a host where acquisition succeeds. -/
theorem write_fills_buffer_witness :
    bufferContents (run (Demo.main .interStageVariables workingNavigator)).trace
        "vertexBuffer" = some InterStageVariables.vertices ∧
    bufferContents (run (Demo.main .storageBufferAsAVertexBuffer workingNavigator)).trace
        "storageVertexBuffer" = some StorageBufferAsAVertexBuffer.vertexData := by
  obtain ⟨⟨_, _, _, -, -, rfl, -, -, -, -, -, -, h1⟩, ⟨_, _, _, -, -, rfl, -, -, -, -, -, -, h2⟩⟩ :=
    write_fills_buffer workingNavigator _ _ _ rfl rfl rfl
  exact ⟨h1, h2⟩

/-- C6. In each demo the vertex input of the pipeline matches its vertex entry
point, so the IncompatibleLayout condition does not hold.  In the inter-stage demo
the location-bound inputs of `vertexMain` are exactly location 0 of type vec3f,
and the one supplied layout has exactly one attribute, at shader location 0, of
format float32x3 (12 bytes) at offset 0, with offset + size <= arrayStride = 12
and arrayStride x 6 = 72 = the buffer size.  In the storage-buffer demo no vertex
layout is supplied and `vs_main` has no location-bound input, only the
vertex_index builtin. -/
theorem vertex_input_matches (navigator : Navigator) (gpu : GPU)
    (adapter : GPUAdapter) (device : GPUDevice)
    (hgpu : navigator.gpu = some gpu)
    (hadapter : gpu.requestAdapter "low-power" = .resolved (some adapter))
    (hdevice : adapter.requestDevice = .resolved (some device)) :
    (∃ entry layout attr size,
      vertexEntryPoint (run (Demo.main .interStageVariables navigator)).trace
        "cellPipeline" = some entry ∧
      entry.name = "vertexMain" ∧
      entry.locationInputs = [(0, .vec3f)] ∧
      (createdRenderPipeline (run (Demo.main .interStageVariables navigator)).trace
        "cellPipeline").map (fun d => d.vertex.buffers) = some (some [layout]) ∧
      layout.attributes = [attr] ∧
      attr = { format := .float32x3, offset := 0, shaderLocation := 0 } ∧
      attr.format.byteSize = 12 ∧ layout.arrayStride = 12 ∧
      attr.offset + attr.format.byteSize ≤ layout.arrayStride ∧
      (createdBuffer (run (Demo.main .interStageVariables navigator)).trace
        "vertexBuffer").map (fun d => d.size) = some size ∧
      layout.arrayStride * 6 = size ∧ size = 72 ∧
      incompatibleLayout entry (some [layout]) = false) ∧
    (∃ entry,
      vertexEntryPoint (run (Demo.main .storageBufferAsAVertexBuffer navigator)).trace
        "rendererPipeline" = some entry ∧
      entry.name = "vs_main" ∧
      entry.locationInputs = [] ∧
      entry.params.map (fun p => p.attr) = [.builtin "vertex_index"] ∧
      (createdRenderPipeline (run (Demo.main .storageBufferAsAVertexBuffer navigator)).trace
        "rendererPipeline").map (fun d => d.vertex.buffers) = some none ∧
      incompatibleLayout entry none = false) := by
  have hA := InterStageVariables.interStage_run_ok navigator gpu adapter device hgpu hadapter hdevice
  have hB := StorageBufferAsAVertexBuffer.storageBuffer_run_ok navigator gpu adapter device hgpu
    hadapter hdevice
  constructor
  · rw [Demo.main, hA.1]
    exact ⟨_, InterStageVariables.vertexBufferLayout, _, 72, rfl, rfl, rfl, rfl, rfl, rfl, rfl,
      rfl, by decide, rfl, rfl, rfl, rfl⟩
  · rw [Demo.main, hB.1]
    exact ⟨_, rfl, rfl, rfl, rfl, rfl, rfl⟩

/-- Witness of `vertex_input_matches` on a host where acquisition succeeds. -/
theorem vertex_input_matches_witness :
    ∃ entry,
      vertexEntryPoint (run (Demo.main .storageBufferAsAVertexBuffer workingNavigator)).trace
        "rendererPipeline" = some entry ∧
      incompatibleLayout entry none = false := by
  obtain ⟨entry, h, -, -, -, -, h2⟩ :=
    (vertex_input_matches workingNavigator _ _ _ rfl rfl rfl).2
  exact ⟨entry, h, h2⟩

/-- C7. In the storage-buffer demo the bind group is created against group 0 of the
layout the pipeline derives from its shader (`layout: "auto"`), the same pipeline
and group it is later bound with.  That layout has the single slot binding 0, the
read-only storage variable `vertices`; the bind group has the single entry binding
0, mapped to `storageVertexBuffer`.  No slot is omitted and none is extra, the
buffer has the capability the slot requires, and the LayoutMismatch condition does
not hold. -/
theorem bind_group_covers_layout (navigator : Navigator) (gpu : GPU)
    (adapter : GPUAdapter) (device : GPUDevice)
    (hgpu : navigator.gpu = some gpu)
    (hadapter : gpu.requestAdapter "low-power" = .resolved (some adapter))
    (hdevice : adapter.requestDevice = .resolved (some device)) :
    ∃ descriptor layout,
      createdBindGroup (run (StorageBufferAsAVertexBuffer.main navigator)).trace
        "bindGroup" = some descriptor ∧
      descriptor.layout = .ofPipeline "rendererPipeline" 0 ∧
      (createdRenderPipeline (run (StorageBufferAsAVertexBuffer.main navigator)).trace
        "rendererPipeline").map (fun d => d.layout) = some "auto" ∧
      derivedBindGroupLayout (run (StorageBufferAsAVertexBuffer.main navigator)).trace
        "rendererPipeline" 0 = some layout ∧
      layout =
        [{ group := 0, binding := 0, kind := .storageRead, name := "vertices",
           element := StorageBufferAsAVertexBuffer.Vertex }] ∧
      layout.map (fun slot => slot.binding) = [0] ∧
      descriptor.entries = [{ binding := 0, buffer := "storageVertexBuffer" }] ∧
      (∀ binding : Nat,
        binding ∈ descriptor.entries.map (fun e => e.binding) ↔
          binding ∈ layout.map (fun slot => slot.binding)) ∧
      layoutMismatch (run (StorageBufferAsAVertexBuffer.main navigator)).trace layout
        descriptor.entries = false ∧
      (run (StorageBufferAsAVertexBuffer.main navigator)).trace.filter
          (fun op => match op with
            | .setPipeline _ => true
            | .setBindGroup _ _ => true
            | _ => false) =
        [.setPipeline "rendererPipeline", .setBindGroup 0 "bindGroup"] := by
  have hB := StorageBufferAsAVertexBuffer.storageBuffer_run_ok navigator gpu adapter device hgpu
    hadapter hdevice
  rw [hB.1]
  refine ⟨_, _, rfl, rfl, rfl, rfl, rfl, rfl, rfl, ?_, rfl, rfl⟩
  intro binding
  rfl

/-- Witness of `bind_group_covers_layout` on a host where acquisition succeeds. -/
theorem bind_group_covers_layout_witness :
    ∃ descriptor layout,
      createdBindGroup (run (StorageBufferAsAVertexBuffer.main workingNavigator)).trace
        "bindGroup" = some descriptor ∧
      derivedBindGroupLayout (run (StorageBufferAsAVertexBuffer.main workingNavigator)).trace
        "rendererPipeline" 0 = some layout ∧
      layoutMismatch (run (StorageBufferAsAVertexBuffer.main workingNavigator)).trace layout
        descriptor.entries = false := by
  obtain ⟨descriptor, layout, h1, -, -, h2, -, -, -, -, h3, -⟩ :=
    bind_group_covers_layout workingNavigator _ _ _ rfl rfl rfl
  exact ⟨descriptor, layout, h1, h2, h3⟩

/-- C8. In the storage-buffer demo the host packing follows the 16-byte record
layout of the shader.  A host record is 4 floats of 4 bytes = 16 bytes, which is
the size, the alignment and the array stride of the structure `Vertex`; the data
is 16 x 6 = 96 bytes, a whole number of strides, so the shader's array has exactly
6 elements; and for every i < 6 host record i starts at byte 16 x i, a multiple of
16 and the offset at which the shader reads element i, whose `pos` is that
record. -/
theorem storage_record_alignment (navigator : Navigator) (gpu : GPU)
    (adapter : GPUAdapter) (device : GPUDevice)
    (hgpu : navigator.gpu = some gpu)
    (hadapter : gpu.requestAdapter "low-power" = .resolved (some adapter))
    (hdevice : adapter.requestDevice = .resolved (some device)) :
    StorageBufferAsAVertexBuffer.floatsPerVertex * BYTES_PER_ELEMENT = 16 ∧
    StorageBufferAsAVertexBuffer.Vertex.sizeOf = 16 ∧
    StorageBufferAsAVertexBuffer.Vertex.alignOf = 16 ∧
    StorageBufferAsAVertexBuffer.Vertex.arrayStride = 16 ∧
    byteLength StorageBufferAsAVertexBuffer.vertexData = 16 * 6 ∧
    byteLength StorageBufferAsAVertexBuffer.vertexData = 96 ∧
    byteLength StorageBufferAsAVertexBuffer.vertexData %
      StorageBufferAsAVertexBuffer.Vertex.arrayStride = 0 ∧
    ∃ contents view,
      boundBuffer (run (StorageBufferAsAVertexBuffer.main navigator)).trace "bindGroup" 0 =
        some contents ∧
      contents = StorageBufferAsAVertexBuffer.vertexData ∧
      StorageBufferAsAVertexBuffer.verticesView contents = some view ∧
      view.length = 6 ∧
      ∀ i : Nat, i < 6 →
        StorageBufferAsAVertexBuffer.hostRecordOffset i = 16 * i ∧
        StorageBufferAsAVertexBuffer.hostRecordOffset i % 16 = 0 ∧
        StorageBufferAsAVertexBuffer.hostRecordOffset i =
          StorageBufferAsAVertexBuffer.Vertex.arrayStride * i +
            StorageBufferAsAVertexBuffer.posOffset ∧
        (StorageBufferAsAVertexBuffer.hostRecord i).length = 4 ∧
        (Vec4.ofFloats (StorageBufferAsAVertexBuffer.hostRecord i)).isSome = true ∧
        (view[i]?).map (fun v => v.pos) =
          Vec4.ofFloats (StorageBufferAsAVertexBuffer.hostRecord i) := by
  have hB := StorageBufferAsAVertexBuffer.storageBuffer_run_ok navigator gpu adapter device hgpu
    hadapter hdevice
  rw [hB.1]
  refine ⟨rfl, rfl, rfl, rfl, rfl, rfl, rfl, StorageBufferAsAVertexBuffer.vertexData,
    [⟨⟨0, 0, 0, 1⟩⟩, ⟨⟨1, 0, 0, 1⟩⟩, ⟨⟨1, 1, 0, 1⟩⟩, ⟨⟨0, 0, 0, 1⟩⟩, ⟨⟨1, 1, 0, 1⟩⟩,
     ⟨⟨0, 1, 0, 1⟩⟩], rfl, rfl, rfl, rfl, ?_⟩
  intro i hi
  interval_cases i <;> exact ⟨rfl, rfl, rfl, rfl, rfl, rfl⟩

/-- Witness of `storage_record_alignment` on a host where acquisition succeeds. -/
theorem storage_record_alignment_witness :
    ∃ view,
      (boundBuffer (run (StorageBufferAsAVertexBuffer.main workingNavigator)).trace
        "bindGroup" 0).bind StorageBufferAsAVertexBuffer.verticesView = some view ∧
      view.length = 6 := by
  obtain ⟨contents, view, h1, -, h2, h3, -⟩ :=
    (storage_record_alignment workingNavigator _ _ _ rfl rfl rfl).2.2.2.2.2.2.2
  exact ⟨view, by rw [h1]; exact h2, h3⟩

/-- C9. The two demos draw the same geometry.  The data of the storage-buffer demo
is the data of the inter-stage demo with w = 1 appended to each of its six
three-float records, and for every vertex index i < 6 the position
`vec4f(pos, 1.0)` that `vertexMain` returns for the fetched input equals the
position `vertices[i].pos` that `vs_main` returns, the element i lying within the
6 elements of the bound buffer. -/
theorem demos_draw_same_geometry (navigator : Navigator) (gpu : GPU)
    (adapter : GPUAdapter) (device : GPUDevice)
    (hgpu : navigator.gpu = some gpu)
    (hadapter : gpu.requestAdapter "low-power" = .resolved (some adapter))
    (hdevice : adapter.requestDevice = .resolved (some device)) :
    StorageBufferAsAVertexBuffer.vertexData =
      (InterStageVariables.vertices.toChunks 3).flatMap (fun record => record ++ [1]) ∧
    (InterStageVariables.vertices.toChunks 3).length = 6 ∧
    ∃ contents view,
      boundBuffer (run (Demo.main .storageBufferAsAVertexBuffer navigator)).trace
        "bindGroup" 0 = some contents ∧
      StorageBufferAsAVertexBuffer.verticesView contents = some view ∧
      view.length = 6 ∧
      ∀ i : Nat, i < 6 →
        ∃ pos output,
          positionInput (run (Demo.main .interStageVariables navigator)).trace
            "cellPipeline" "vertexBuffer" i = some pos ∧
          InterStageVariables.vertexMain pos i = some output ∧
          output.position = vec4f pos 1 ∧
          StorageBufferAsAVertexBuffer.vs_main view i = some output.position ∧
          Demo.clipPosition .interStageVariables
            (run (Demo.main .interStageVariables navigator)).trace i =
              some output.position ∧
          Demo.clipPosition .storageBufferAsAVertexBuffer
            (run (Demo.main .storageBufferAsAVertexBuffer navigator)).trace i =
              some output.position := by
  have hA := InterStageVariables.interStage_run_ok navigator gpu adapter device hgpu hadapter hdevice
  have hB := StorageBufferAsAVertexBuffer.storageBuffer_run_ok navigator gpu adapter device hgpu
    hadapter hdevice
  rw [Demo.main, Demo.main, hA.1, hB.1]
  refine ⟨rfl, rfl, StorageBufferAsAVertexBuffer.vertexData,
    [⟨⟨0, 0, 0, 1⟩⟩, ⟨⟨1, 0, 0, 1⟩⟩, ⟨⟨1, 1, 0, 1⟩⟩, ⟨⟨0, 0, 0, 1⟩⟩, ⟨⟨1, 1, 0, 1⟩⟩,
     ⟨⟨0, 1, 0, 1⟩⟩], rfl, rfl, rfl, ?_⟩
  intro i hi
  interval_cases i
  · exact ⟨⟨0, 0, 0⟩, ⟨⟨0, 0, 0, 1⟩, ⟨1, 0, 0, 1⟩⟩, rfl, rfl, rfl, rfl, rfl, rfl⟩
  · exact ⟨⟨1, 0, 0⟩, ⟨⟨1, 0, 0, 1⟩, ⟨0, 1, 0, 1⟩⟩, rfl, rfl, rfl, rfl, rfl, rfl⟩
  · exact ⟨⟨1, 1, 0⟩, ⟨⟨1, 1, 0, 1⟩, ⟨0, 0, 1, 1⟩⟩, rfl, rfl, rfl, rfl, rfl, rfl⟩
  · exact ⟨⟨0, 0, 0⟩, ⟨⟨0, 0, 0, 1⟩, ⟨1, 1, 0, 1⟩⟩, rfl, rfl, rfl, rfl, rfl, rfl⟩
  · exact ⟨⟨1, 1, 0⟩, ⟨⟨1, 1, 0, 1⟩, ⟨0, 1, 1, 1⟩⟩, rfl, rfl, rfl, rfl, rfl, rfl⟩
  · exact ⟨⟨0, 1, 0⟩, ⟨⟨0, 1, 0, 1⟩, ⟨1, 0, 1, 1⟩⟩, rfl, rfl, rfl, rfl, rfl, rfl⟩

/-- Witness of `demos_draw_same_geometry` on a host where acquisition succeeds:
vertex 2 gets the same position in both demos. -/
theorem demos_draw_same_geometry_witness :
    Demo.clipPosition .interStageVariables
        (run (Demo.main .interStageVariables workingNavigator)).trace 2 =
      Demo.clipPosition .storageBufferAsAVertexBuffer
        (run (Demo.main .storageBufferAsAVertexBuffer workingNavigator)).trace 2 := by
  obtain ⟨_, _, -, -, -, h⟩ :=
    (demos_draw_same_geometry workingNavigator _ _ _ rfl rfl rfl).2.2
  obtain ⟨_, _, -, -, -, -, h1, h2⟩ := h 2 (by decide)
  rw [h1, h2]

/-- C10. In the inter-stage demo the attribute at shader location 0 (offset 0) of
the layout the pipeline is created with has format float32x3: it stores three
32-bit floats per vertex, 12 bytes, the whole stride, and not two as the comment
next to the format says.  The record fetched for vertex 1 has the three floats
1, 0, 0. -/
theorem position_attribute_stores_three_floats :
    ((createdRenderPipeline (run (InterStageVariables.main workingNavigator)).trace
        "cellPipeline").bind (fun d => d.vertex.buffers)).map
        (fun layouts => layouts.map (fun layout =>
          (layout.arrayStride,
           layout.attributes.map (fun a =>
            (a.shaderLocation, a.offset, a.format, a.format.components))))) =
      some [(12, [(0, 0, .float32x3, 3)])] ∧
    VertexFormat.float32x3.components ≠ 2 ∧
    VertexFormat.float32x3.byteSize = 12 ∧
    (bufferContents (run (InterStageVariables.main workingNavigator)).trace
        "vertexBuffer").bind (fun contents =>
          fetchAttribute contents InterStageVariables.vertexBufferLayout
            { format := .float32x3, offset := 0, shaderLocation := 0 } 1) =
      some [1, 0, 0] := by
  refine ⟨rfl, by decide, rfl, rfl⟩

end WebGPU
